import Mathlib

/-!
Verification of the self-update engine of `custom_components/ct_ble_devices`
(file `updater.py`).  The definitions below are a shallow embedding of the
Python source: pure string manipulation becomes Lean string functions, the
file system becomes an explicit value (`Tree` / `World`), network and host
collaborators (HTTP responses, the reload boundary, rename faults) become
explicit input parameters, and every Python function that the claims touch is
transcribed into an executable Lean definition.
-/

namespace CtBle

/-! ## Generic executable list/string helpers (replacements for Python's
`in`, `.endswith`, `.lower`, `.lstrip`, `str.split`) -/

/-- `leadsWith pre l` is true when `pre` is an initial segment of `l`
(Python `str.startswith` / path-prefix test). -/
def leadsWith [DecidableEq α] : List α → List α → Bool
  | [], _ => true
  | _ :: _, [] => false
  | a :: as, b :: bs => if a = b then leadsWith as bs else false

/-- `subAt needle hay` is true when `needle` occurs contiguously inside
`hay` (Python's `needle in hay` on strings, lifted to lists). -/
def subAt [DecidableEq α] (needle : List α) : List α → Bool
  | [] => needle.isEmpty
  | c :: rest => leadsWith needle (c :: rest) || subAt needle rest

/-- Python `needle in hay` for strings. -/
def strHasSub (hay needle : String) : Bool := subAt needle.data hay.data

/-- Python `s.endswith suffix`. -/
def endsWithStr (s suffix : String) : Bool :=
  leadsWith suffix.data.reverse s.data.reverse

/-- ASCII lowering of one character (the identifiers compared in the source
are ASCII, so this models Python `str.lower` on them). -/
def lowChar (c : Char) : Char :=
  if 'A' ≤ c && c ≤ 'Z' then Char.ofNat (c.toNat + 32) else c

/-- Python `s.lower()` (ASCII fragment). -/
def lowerStr (s : String) : String := ⟨s.data.map lowChar⟩

/-- Python lstrip with the character set v: drop every leading v character
(`updater.py` line 213). -/
def lstripV (s : String) : String := ⟨s.data.dropWhile (fun c => c = 'v')⟩

/-- Split a character list on the dot separator. -/
def splitDots : List Char → List (List Char)
  | [] => [[]]
  | c :: rest =>
    let r := splitDots rest
    if c = '.' then [] :: r
    else
      match r with
      | [] => [[c]]
      | g :: gs => (c :: g) :: gs

/-- Parse a digit run into a number; `none` if empty or non-digit. -/
def digitsToNat : List Char → Option Nat
  | cs =>
    if cs ≠ [] && cs.all (fun c => c.isDigit) then
      some (cs.foldl (fun n c => n * 10 + (c.toNat - 48)) 0)
    else none

/-! ## Version parsing and comparison

`updater.py` compares versions with `packaging.version.parse` (lines
174-184).  The claims only quantify over parseable version strings; the
embedding models the plain numeric-release fragment `N(.N)*` of that
grammar, on which `packaging` orders versions componentwise with implicit
zero padding. -/

/-- Parse a dotted numeric version string into its components. -/
def parseVer (s : String) : Option (List Nat) :=
  (splitDots s.data).mapM digitsToNat

/-- Strict semantic-version order on component lists, with implicit zero
padding (so `1.0 = 1.0.0`), as `packaging` orders release versions. -/
def verLtB : List Nat → List Nat → Bool
  | [], [] => false
  | [], b :: bs => (0 < b) || verLtB [] bs
  | _ :: _, [] => false
  | a :: as, b :: bs => (a < b) || ((a = b) && verLtB as bs)

/-- `x ≤ y` for release versions; release versions are totally ordered, so
this is the complement of the reversed strict order. -/
def verLeB (x y : List Nat) : Bool := !(verLtB y x)

theorem verLtB_irrefl (a : List Nat) : verLtB a a = false := by
  induction a with
  | nil => rfl
  | cons x xs ih => simp [verLtB, ih]

/-! ## Version Source Client (`_get_latest_version`, lines 201-247) -/

/-- One element of the release's `assets` array; `url` models the optional
`browser_download_url` field. -/
structure Asset where
  name : String
  url : Option String
deriving DecidableEq

/-- The JSON body of a 200 response from `releases/latest`. -/
structure RegistryJson where
  tag : String
  assets : List Asset
deriving DecidableEq

/-- Outcome of the registry HTTP request, as observed by the client. -/
inductive HttpResp where
  | ok (data : RegistryJson)
  | notFound
  | other (code : Nat)
  | netError
deriving DecidableEq

/-- The source-archive URL synthesized when no zip asset is attached
(line 229). -/
def synthUrl (v : String) : String :=
  "https://github.com/StudyDay6/ct_ble_devices/archive/refs/tags/v" ++ v ++ ".zip"

/-- `IntegrationUpdater._get_latest_version` (lines 201-247): on 200, strip
leading `v` from `tag_name`; pick the first asset whose name ends in `.zip`
(falling back to a synthesized source-archive URL when there is none or the
chosen asset has no usable URL); on 404 or any other failure return
`(None, None)`. -/
def getLatestVersion (r : HttpResp) : Option String × Option String :=
  match r with
  | .ok d =>
    let v := lstripV d.tag
    if v = "" then (none, none)
    else
      let firstZip := d.assets.find? (fun a => endsWithStr a.name (".zip"))
      let du :=
        match firstZip with
        | some a => a.url.getD ("")
        | none => ""
      let du := if du = "" then synthUrl v else du
      (some v, some du)
  | _ => (none, none)

/-! ## File-system model

Relative paths are component lists; a tree is the ordered list of its files
with their contents.  File contents are modelled abstractly: the manifest is
a JSON object (field list), everything else raw text.  `World` holds the
four sibling directory slots the installer manipulates (`integration_path`,
`.backup`, `.staging`, `.old`); a slot is `none` when the directory does not
exist.  Renames move tree values between slots unchanged, so byte-for-byte
identity is value equality. -/

/-- A relative path, as a list of components. -/
abbrev Path := List String

/-- File contents: a JSON object for manifests, raw text otherwise. -/
inductive FileData where
  | text (s : String)
  | json (fields : List (String × String))
deriving DecidableEq

/-- A directory tree: the files below the root, with their contents. -/
abbrev Tree := List (Path × FileData)

/-- Look a file up in a tree. -/
def tlookup (t : Tree) (p : Path) : Option FileData :=
  (t.find? (fun e => e.1 = p)).map (fun e => e.2)

/-- Write (overwrite or create) a file in a tree, as `shutil.copy2` onto the
staging copy does. -/
def twrite (t : Tree) (p : Path) (c : FileData) : Tree :=
  if t.any (fun e => e.1 = p) then
    t.map (fun e => if e.1 = p then (p, c) else e)
  else t ++ [(p, c)]

/-- The extracted archive: the scratch directory's path string (exclusion
checks run on absolute path strings), its top-level entries in iteration
order (name, is-directory flag), and all files and directories below it. -/
structure Extracted where
  pre : String
  top : List (String × Bool)
  files : List (Path × FileData)
  dirs : List Path
deriving DecidableEq

/-- Python `Path.exists()` inside the extracted tree (true for files and
directories alike). -/
def pexists (ex : Extracted) (p : Path) : Bool :=
  ex.dirs.contains p || ex.files.any (fun f => f.1 = p)

/-- The sibling directory slots of the live integration directory. -/
structure World where
  live : Option Tree
  backup : Option Tree
  staging : Option Tree
  old : Option Tree
deriving DecidableEq

/-- What the host reload boundary does when invoked (`_reload_integration`
can return `True`, return `False`, or raise). -/
inductive ReloadOutcome where
  | ok
  | failed
  | exn
deriving DecidableEq

/-- Environment fault injected into the two-rename atomic swap (lines
394-398): either both renames succeed, or the second rename (staging into
the live path) raises after the first has moved the live tree to `.old`. -/
inductive SwapFault where
  | noFault
  | secondFails
deriving DecidableEq

/-! ## Locating the payload root (lines 283-314) -/

/-- The component identifier. -/
def DEVID : String := "ct_ble_devices"

/-- The fixed HACS-convention nested path searched first. -/
def CCP : Path := ["custom_components", "ct_ble_devices"]

/-- Pass 2 of the payload search (lines 292-298): first top-level directory
whose lowered name contains the component identifier and which holds
`custom_components/ct_ble_devices/manifest.json`. -/
def findVersioned (ex : Extracted) : List (String × Bool) → Option Path
  | [] => none
  | (name, isDir) :: rest =>
    if isDir && strHasSub (lowerStr name) DEVID
        && pexists ex [name, "custom_components", "ct_ble_devices"]
        && pexists ex [name, "custom_components", "ct_ble_devices", "manifest.json"] then
      some [name, "custom_components", "ct_ble_devices"]
    else findVersioned ex rest

/-- Pass 3 of the payload search (lines 300-310): for each top-level
directory in order, take it if it directly holds `manifest.json`, otherwise
take its `ct_ble_devices` subdirectory if that holds `manifest.json`. -/
def findLegacy (ex : Extracted) : List (String × Bool) → Option Path
  | [] => none
  | (name, isDir) :: rest =>
    if isDir then
      if pexists ex [name, "manifest.json"] then some [name]
      else if pexists ex [name, "ct_ble_devices"]
          && pexists ex [name, "ct_ble_devices", "manifest.json"] then
        some [name, "ct_ble_devices"]
      else findLegacy ex rest
    else findLegacy ex rest

/-- The payload-root search of `_download_and_update` (lines 283-314):
the fixed nested path (with its manifest) first, then the versioned-prefix
pass, then the legacy pass. -/
def locatePayload (ex : Extracted) : Option Path :=
  if pexists ex CCP && pexists ex (CCP ++ ["manifest.json"]) then some CCP
  else
    match findVersioned ex ex.top with
    | some p => some p
    | none => findLegacy ex ex.top

/-! ## Staging overlay (lines 331-369) -/

/-- The exclusion set of line 332, exactly as the source spells it
(including the glob-looking entries, which are matched as literal
substrings by line 343). -/
def EXCLUDES : List String :=
  ["__pycache__", ".git", "venv", ".backup", ".staging", "*.pyc", "*.pyo"]

/-- The required-file names of line 334. -/
def REQUIRED : List String := ["manifest.json", "__init__.py"]

/-- Line 342-345: a file is skipped when any exclusion entry occurs as a
substring of its absolute path string. -/
def shouldExclude (s : String) : Bool := EXCLUDES.any (fun e => strHasSub s e)

/-- Last path component (`PurePath.name`). -/
def lastComp : Path → String
  | [] => ""
  | [x] => x
  | _ :: xs => lastComp xs

/-- Join path components with slashes. -/
def joinPath : Path → String
  | [] => ""
  | [x] => x
  | x :: xs => x ++ "/" ++ joinPath xs

/-- The absolute path string `str(item)` of a file inside the scratch
directory. -/
def pathStr (pre : String) (p : Path) : String := pre ++ "/" ++ joinPath p

/-- The payload files: every file strictly below the payload root, in
traversal order (`extracted_path.rglob('*')` with the `is_file` guard). -/
def payloadFiles (ex : Extracted) (root : Path) : List (Path × FileData) :=
  ex.files.filter (fun f => leadsWith root f.1 && root.length < f.1.length)

/-- The overlay loop of lines 337-362: copy each non-excluded payload file
onto the staging tree at its relative path, recording which required names
were seen. -/
def overlay (pre : String) (root : Path) :
    List (Path × FileData) → Tree → List String → Tree × List String
  | [], t, found => (t, found)
  | (p, c) :: rest, t, found =>
    if shouldExclude (pathStr pre p) then overlay pre root rest t found
    else
      let nm := lastComp (p.drop root.length)
      let found2 :=
        if REQUIRED.contains nm && !(found.contains nm) then found ++ [nm] else found
      overlay pre root rest (twrite t (p.drop root.length) c) found2

/-- The `found_required_files` accumulation of the overlay loop on its own
(it does not depend on the staging tree). -/
def overlayFound (pre : String) (root : Path) :
    List (Path × FileData) → List String → List String
  | [], found => found
  | (p, _c) :: rest, found =>
    if shouldExclude (pathStr pre p) then overlayFound pre root rest found
    else
      let nm := lastComp (p.drop root.length)
      let found2 :=
        if REQUIRED.contains nm && !(found.contains nm) then found ++ [nm] else found
      overlayFound pre root rest found2

theorem overlay_snd (pre : String) (root : Path) :
    ∀ (pf : List (Path × FileData)) (t : Tree) (found : List String),
      (overlay pre root pf t found).2 = overlayFound pre root pf found := by
  intro pf
  induction pf with
  | nil => intro t found; rfl
  | cons e rest ih =>
    intro t found
    simp only [overlay, overlayFound]
    split
    · exact ih t found
    · exact ih _ _

/-- The required names still missing after the overlay of the payload at
`root` (the `missing_files` of line 365). -/
def missingAfter (ex : Extracted) (root : Path) : List String :=
  REQUIRED.filter
    (fun r => !((overlayFound ex.pre root (payloadFiles ex root) []).contains r))

/-! ## Manifest version rewrite (`_update_version_info_in_path`,
lines 496-511) -/

/-- Python dict assignment `manifest['version'] = new_version`. -/
def setField (fs : List (String × String)) (k v : String) : List (String × String) :=
  if fs.any (fun p => p.1 = k) then
    fs.map (fun p => if p.1 = k then (k, v) else p)
  else fs ++ [(k, v)]

/-- `_update_version_info_in_path`: rewrite the staged manifest's version
field when the manifest exists and parses; any failure only logs. -/
def updateVersionInfo (t : Tree) (v : String) : Tree :=
  match tlookup t ["manifest.json"] with
  | some (.json fs) => twrite t ["manifest.json"] (.json (setField fs ("version") v))
  | _ => t

/-! ## The installer (`_download_and_update` from extraction onward,
lines 283-490)

Download and unzip succeed by assumption — the claims under verification
all concern the post-extraction pipeline, so the extracted tree is an input.
The reload boundary's behaviour and a possible fault in the second rename of
the atomic swap are environment inputs. -/

/-- `_download_and_update` after extraction: locate the payload, back up,
stage, overlay, validate, swap, reload, and recover on the error paths,
returning the Python method's boolean together with the final directory
state. -/
def installFromExtracted (ex : Extracted) (newVersion : String) (autoReload : Bool)
    (reload : ReloadOutcome) (fault : SwapFault) (w : World) : Bool × World :=
  match locatePayload ex with
  | none => (false, w)
  | some root =>
    match w.live with
    | none =>
      -- `copytree(live, backup)` raises after the stale backup was removed;
      -- the outer handler then finds no backup to restore (lines 317-320, 467-482)
      (false, { w with backup := none })
    | some live0 =>
      -- lines 317-321: refresh `.backup` with a copy of the live tree
      let w1 : World := { w with backup := some live0 }
      -- lines 324-329: refresh `.staging` with a copy of the live tree
      let w2 : World := { w1 with staging := some live0 }
      -- lines 331-362: overlay the payload onto the staging copy
      let ov := overlay ex.pre root (payloadFiles ex root) live0 []
      let missing := REQUIRED.filter (fun r => !(ov.2.contains r))
      if missing ≠ [] then
        -- lines 364-369: delete the staging dir and fail
        (false, { w2 with staging := none })
      else
        match tlookup ov.1 ["manifest.json"] with
        | some (.text _) =>
          -- lines 371-382: staged manifest exists but does not parse
          (false, { w2 with staging := none })
        | _ =>
          -- line 387: rewrite the staged manifest's version
          let staged := updateVersionInfo ov.1 newVersion
          let w3 : World := { w2 with staging := some staged }
          -- lines 390-392: remove a stale `.old`
          let w4 : World := { w3 with old := none }
          match fault with
          | .secondFails =>
            -- line 396 succeeded, line 398 raised
            let w5 : World := { w4 with old := some live0, live := none }
            -- lines 404-405: reverse-rename `.old` back to the live path
            let w6 : World := { w5 with live := some live0, old := none }
            -- lines 406-407: remove the staging tree
            let w7 : World := { w6 with staging := none }
            -- line 408 re-raises; lines 471-478 restore from `.backup`
            let w8 : World :=
              match w7.backup with
              | some b => { w7 with live := some b }
              | none => w7
            (false, w8)
          | .noFault =>
            -- lines 396-398: live → `.old`, staging → live
            let w5 : World := { w4 with old := some live0, live := some staged, staging := none }
            if autoReload then
              match reload with
              | .ok =>
                -- lines 416-425: reload succeeded, clean `.old`
                (true, { w5 with old := none })
              | .failed =>
                -- lines 426-428: reload returned False: keep the new tree
                (false, w5)
              | .exn =>
                -- lines 429-455: reload raised: roll back
                match w5.old with
                | some o => (false, { w5 with live := some o, old := none })
                | none =>
                  match w5.backup with
                  | some b => (false, { w5 with live := some b })
                  | none => (false, w5)
            else
              -- lines 456-463: no reload possible, clean `.old`
              (true, { w5 with old := none })

/-! ## `check_and_update` (lines 162-199) -/

/-- The body of `check_and_update` after `_get_latest_version` returned a
version: parse both versions, refuse when the latest is not strictly newer,
otherwise run the installer (lines 174-195). -/
def decideAndInstall (currentVersion latestVersion : String) (ex : Extracted)
    (autoReload : Bool) (reload : ReloadOutcome) (fault : SwapFault) (w : World) :
    (Bool × Option String) × World :=
  match parseVer currentVersion, parseVer latestVersion with
  | some a, some b =>
    if verLeB b a then ((false, none), w)
    else
      let r := installFromExtracted ex latestVersion autoReload reload fault w
      ((r.1, some latestVersion), r.2)
  | _, _ => ((false, none), w)

/-- `check_and_update` (lines 162-199): fetch the latest version, compare,
and install when strictly newer; the returned pair is `(success,
attempted-version)`.  The download and extraction of the chosen artifact are
summarised by the environment-supplied `Extracted` tree. -/
def checkAndUpdate (currentVersion : String) (resp : HttpResp) (ex : Extracted)
    (autoReload : Bool) (reload : ReloadOutcome) (fault : SwapFault) (w : World) :
    (Bool × Option String) × World :=
  match getLatestVersion resp with
  | (some lv, _) => decideAndInstall currentVersion lv ex autoReload reload fault w
  | (none, _) => ((false, none), w)

/-! ## The scheduler loop (`_periodic_check`, lines 102-160)

Times are minutes.  One `periodicStep` is one wake of the 5-minute poll
loop; its boolean says whether `check_and_update` was invoked during that
wake. -/

/-- `CHECK_INTERVAL` (line 22), in minutes. -/
def CHECK_INTERVAL : Nat := 1440

/-- `RETRY_DELAY` (line 26), in minutes. -/
def RETRY_DELAY : Nat := 30

/-- `MAX_RETRY_ATTEMPTS` (line 25). -/
def MAX_RETRY_ATTEMPTS : Nat := 3

/-- The mutable fields of `IntegrationUpdater` the scheduler reads and
writes (`current_version`, `last_check`, `last_failed_version`,
`retry_count`; lines 74-80). -/
structure UpdState where
  currentVersion : String
  lastCheck : Option Nat
  lastFailedVersion : Option String
  retryCount : Nat
deriving DecidableEq

/-- The environment of one check cycle: the registry response and, if an
install happens, the extracted artifact, the reload boundary's behaviour and
any swap fault. -/
structure CycleEnv where
  resp : HttpResp
  ex : Extracted
  autoReload : Bool
  reload : ReloadOutcome
  fault : SwapFault

/-- Lines 110-113: a failed update is due for a retry when one is recorded
and the retry delay has elapsed since the last check.
(`RETRY_ON_FAILURE` is the constant `True`.) -/
def retryDue (s : UpdState) (now : Nat) : Bool :=
  s.lastFailedVersion.isSome &&
    (match s.lastCheck with
     | some lc => decide (RETRY_DELAY ≤ now - lc)
     | none => false)

/-- One wake of `_periodic_check`'s loop body (lines 106-151): decide
whether to retry or to run a regular check, abandon the failure once the
retry budget is exhausted, invoke `check_and_update` when due, and fold its
outcome into the state.  Returns (invoked?, state, file system). -/
def periodicStep (s : UpdState) (now : Nat) (e : CycleEnv) (w : World) :
    Bool × UpdState × World :=
  let shouldRetry := retryDue s now && decide (s.retryCount < MAX_RETRY_ATTEMPTS)
  -- lines 117-122: retries exhausted: clear the failure record
  let s1 :=
    if retryDue s now && !(decide (s.retryCount < MAX_RETRY_ATTEMPTS)) then
      { s with lastFailedVersion := none, retryCount := 0 }
    else s
  -- lines 124-127
  let shouldCheck :=
    match s1.lastCheck with
    | none => true
    | some lc => decide (CHECK_INTERVAL < now - lc)
  if shouldRetry || shouldCheck then
    let r := checkAndUpdate s1.currentVersion e.resp e.ex e.autoReload e.reload e.fault w
    if r.1.1 then
      -- lines 133-137
      (true, { s1 with lastFailedVersion := none, retryCount := 0, lastCheck := some now }, r.2)
    else if shouldRetry then
      -- lines 140-144
      (true, { s1 with retryCount := s1.retryCount + 1, lastCheck := some now }, r.2)
    else
      match r.1.2 with
      | some v =>
        -- lines 145-151
        (true, { s1 with lastFailedVersion := some v, retryCount := 1, lastCheck := some now }, r.2)
      | none => (true, s1, r.2)
  else (false, s1, w)

/-- A run of the scheduler: fold `periodicStep` over a list of wake times
with their cycle environments. -/
def runCycles (s : UpdState) (w : World) : List (Nat × CycleEnv) → UpdState × World
  | [] => (s, w)
  | (t, e) :: rest =>
    let r := periodicStep s t e w
    runCycles r.2.1 r.2.2 rest

/-! ## Spec-side definitions for the payload-search claim

`locatePayloadClaim` transcribes claim C5's ordered fallback exactly as the
claim words it: (a) the fixed nested path (no manifest requirement stated),
(b) a component-named top-level directory holding the nested path (no
manifest requirement stated), then a full pass (c) for a top-level directory
directly holding the manifest, then a separate full pass (d) for a top-level
directory holding a component-named subdirectory with the manifest.

`locatePayloadAmended` words the amended claim: (a) and (b) also demand the
manifest inside the candidate, and (c)/(d) are a single pass that examines
both options for each top-level directory before moving to the next. -/

/-- Claim C5's ordered fallback, as the claim states it. -/
def locatePayloadClaim (ex : Extracted) : Option Path :=
  let ruleA : Option Path := if pexists ex CCP then some CCP else none
  let ruleB : Option Path :=
    ex.top.findSome? (fun e =>
      if e.2 && strHasSub (lowerStr e.1) DEVID
          && pexists ex [e.1, "custom_components", "ct_ble_devices"] then
        some [e.1, "custom_components", "ct_ble_devices"]
      else none)
  let ruleC : Option Path :=
    ex.top.findSome? (fun e =>
      if e.2 && pexists ex [e.1, "manifest.json"] then some [e.1] else none)
  let ruleD : Option Path :=
    ex.top.findSome? (fun e =>
      if e.2 && pexists ex [e.1, "ct_ble_devices"]
          && pexists ex [e.1, "ct_ble_devices", "manifest.json"] then
        some [e.1, "ct_ble_devices"]
      else none)
  ((ruleA.orElse fun _ => ruleB).orElse fun _ => ruleC).orElse fun _ => ruleD

/-- The amended ordered fallback: manifest required at every rule, and the
legacy rules (c)/(d) checked together per directory. -/
def locatePayloadAmended (ex : Extracted) : Option Path :=
  let ruleA : Option Path :=
    if pexists ex CCP && pexists ex (CCP ++ ["manifest.json"]) then some CCP else none
  let ruleB : Option Path :=
    ex.top.findSome? (fun e =>
      if e.2 && strHasSub (lowerStr e.1) DEVID
          && pexists ex [e.1, "custom_components", "ct_ble_devices"]
          && pexists ex [e.1, "custom_components", "ct_ble_devices", "manifest.json"] then
        some [e.1, "custom_components", "ct_ble_devices"]
      else none)
  let ruleCD : Option Path :=
    ex.top.findSome? (fun e =>
      if e.2 then
        if pexists ex [e.1, "manifest.json"] then some [e.1]
        else if pexists ex [e.1, "ct_ble_devices"]
            && pexists ex [e.1, "ct_ble_devices", "manifest.json"] then
          some [e.1, "ct_ble_devices"]
        else none
      else none)
  (ruleA.orElse fun _ => ruleB).orElse fun _ => ruleCD

theorem findVersioned_eq_findSome (ex : Extracted) :
    ∀ l : List (String × Bool),
      findVersioned ex l =
        l.findSome? (fun e =>
          if e.2 && strHasSub (lowerStr e.1) DEVID
              && pexists ex [e.1, "custom_components", "ct_ble_devices"]
              && pexists ex [e.1, "custom_components", "ct_ble_devices", "manifest.json"] then
            some [e.1, "custom_components", "ct_ble_devices"]
          else none) := by
  intro l
  induction l with
  | nil => rfl
  | cons e rest ih =>
    obtain ⟨name, isDir⟩ := e
    simp only [findVersioned, List.findSome?]
    split
    · next h => simp [h]
    · next h => simp [h, ih]

theorem findLegacy_eq_findSome (ex : Extracted) :
    ∀ l : List (String × Bool),
      findLegacy ex l =
        l.findSome? (fun e =>
          if e.2 then
            if pexists ex [e.1, "manifest.json"] then some [e.1]
            else if pexists ex [e.1, "ct_ble_devices"]
                && pexists ex [e.1, "ct_ble_devices", "manifest.json"] then
              some [e.1, "ct_ble_devices"]
            else none
          else none) := by
  intro l
  induction l with
  | nil => rfl
  | cons e rest ih =>
    obtain ⟨name, isDir⟩ := e
    cases isDir with
    | false => simpa [findLegacy, List.findSome?] using ih
    | true =>
      by_cases h1 : pexists ex [name, "manifest.json"] = true
      · simp [findLegacy, List.findSome?, h1]
      · by_cases h2 : (pexists ex [name, "ct_ble_devices"]
            && pexists ex [name, "ct_ble_devices", "manifest.json"]) = true
        · simp [findLegacy, List.findSome?, h1, h2]
        · simpa [findLegacy, List.findSome?, h1, h2] using ih

/-! ## Concrete inputs shared by witnesses and counterexamples -/

/-- A well-formed extracted archive in the HACS layout, carrying a new
manifest, a new entry point, and a compiled-bytecode file. -/
def exDemo : Extracted :=
  ⟨"/tmp/e", [("custom_components", true)],
   [(["custom_components", "ct_ble_devices", "manifest.json"],
       .json [("version", "2.3.0")]),
    (["custom_components", "ct_ble_devices", "__init__.py"], .text ("init2")),
    (["custom_components", "ct_ble_devices", "mod.pyc"], .text ("bytecode"))],
   [["custom_components"], ["custom_components", "ct_ble_devices"]]⟩

/-- A live integration tree before any install attempt. -/
def liveDemo : Tree :=
  [(["manifest.json"], .json [("version", "1.0.0")]),
   (["__init__.py"], .text ("init1")),
   (["code.py"], .text ("old"))]

/-- The directory state before an install attempt: only the live tree
exists. -/
def wDemo : World := ⟨some liveDemo, none, none, none⟩

/-- An extracted archive in which no payload can be located. -/
def exEmpty : Extracted := ⟨"/tmp/x", [], [], []⟩

/-! # The claims -/

/-- Claim C2 (confirmed).  For parseable versions, the scheduler-level
check proceeds to the installer exactly when the latest version is strictly
newer than the current one; when it is not (in particular when the two are
equal) the check returns the no-update result `(false, none)` with the file
system untouched, before any download or install step runs. -/
theorem c2_version_gate (cur lv : String) (a b : List Nat)
    (ha : parseVer cur = some a) (hb : parseVer lv = some b)
    (ex : Extracted) (ar : Bool) (rl : ReloadOutcome) (f : SwapFault) (w : World) :
    (verLtB a b = true →
      decideAndInstall cur lv ex ar rl f w =
        (((installFromExtracted ex lv ar rl f w).1, some lv),
          (installFromExtracted ex lv ar rl f w).2)) ∧
    (verLtB a b = false →
      decideAndInstall cur lv ex ar rl f w = ((false, none), w)) ∧
    (lv = cur →
      decideAndInstall cur lv ex ar rl f w = ((false, none), w)) := by
  refine ⟨?_, ?_, ?_⟩
  · intro hlt
    simp [decideAndInstall, ha, hb, verLeB, hlt]
  · intro hlt
    simp [decideAndInstall, ha, hb, verLeB, hlt]
  · intro hcur
    subst hcur
    rw [ha] at hb
    cases hb
    simp [decideAndInstall, ha, verLeB, verLtB_irrefl]

/-- Witness for C2 at current version 2.2.9 and latest version 2.3.0. -/
theorem c2_version_gate_witness :
    decideAndInstall ("2.2.9") ("2.3.0") exDemo true .ok .noFault wDemo =
      (((installFromExtracted exDemo ("2.3.0") true .ok .noFault wDemo).1, some ("2.3.0")),
        (installFromExtracted exDemo ("2.3.0") true .ok .noFault wDemo).2) :=
  (c2_version_gate ("2.2.9") ("2.3.0") [2, 2, 9] [2, 3, 0] (by decide) (by decide)
    exDemo true .ok .noFault wDemo).1 (by decide)

/-- Claim C3 (confirmed).  For a 200 registry response the returned version
is the tag with its leading `v` characters stripped; the artifact URL is the
first attached asset whose name ends in `.zip` when one with a usable URL
exists, and otherwise the URL synthesized from the tag; for tag `v2.3.0`
with no assets the URL ends in `refs/tags/v2.3.0.zip`. -/
theorem c3_registry_parse (d : RegistryJson) (hv : lstripV d.tag ≠ "") :
    (getLatestVersion (.ok d)).1 = some (lstripV d.tag) ∧
    (d.assets.find? (fun a => endsWithStr a.name (".zip")) = none →
      (getLatestVersion (.ok d)).2 = some (synthUrl (lstripV d.tag))) ∧
    (∀ a, d.assets.find? (fun a2 => endsWithStr a2.name (".zip")) = some a →
      a.url.getD ("") ≠ "" →
      (getLatestVersion (.ok d)).2 = some (a.url.getD (""))) ∧
    getLatestVersion (.ok ⟨"v2.3.0", []⟩) = (some ("2.3.0"), some (synthUrl ("2.3.0"))) ∧
    endsWithStr (synthUrl ("2.3.0")) ("refs/tags/v2.3.0.zip") = true := by
  refine ⟨?_, ?_, ?_, by decide, by decide⟩
  · simp [getLatestVersion, hv]
  · intro hf
    simp [getLatestVersion, hv, hf]
  · intro a hf hu
    simp [getLatestVersion, hv, hf, hu]

/-- Witness for C3 at the registry response of Scenario A. -/
theorem c3_registry_parse_witness :
    (getLatestVersion (.ok ⟨"v2.3.0", []⟩)).1 = some (lstripV ("v2.3.0")) :=
  (c3_registry_parse ⟨"v2.3.0", []⟩ (by decide)).1

/-- Claim C4 (confirmed).  A 404 registry response makes the version check
return the not-found result `(none, none)`, makes `check_and_update` report
`(false, none)` without touching the file system, and leaves the scheduler
state entirely unchanged when no failure was recorded — in contrast with an
attempted-and-failed install, which records the attempted version. -/
theorem c4_notfound_no_retry (cv : String) (ex : Extracted) (ar : Bool)
    (rl : ReloadOutcome) (f : SwapFault) (w : World) (s : UpdState) (now : Nat)
    (e : CycleEnv) (hs : s.lastFailedVersion = none) (he : e.resp = .notFound) :
    getLatestVersion .notFound = (none, none) ∧
    checkAndUpdate cv .notFound ex ar rl f w = ((false, none), w) ∧
    (periodicStep s now e w).2.1 = s ∧
    (periodicStep s now e w).2.2 = w ∧
    (∀ (cv2 : String) (lc now2 : Nat) (v : String) (e2 : CycleEnv) (w2 : World),
      CHECK_INTERVAL < now2 - lc →
      (checkAndUpdate cv2 e2.resp e2.ex e2.autoReload e2.reload e2.fault w2).1 =
        (false, some v) →
      (periodicStep ⟨cv2, some lc, none, 0⟩ now2 e2 w2).2.1 =
        ⟨cv2, some now2, some v, 1⟩) := by
  have hr : retryDue s now = false := by simp [retryDue, hs]
  refine ⟨rfl, rfl, ?_, ?_, ?_⟩
  · simp only [periodicStep, hr, Bool.false_and, if_neg (by decide : ¬False)]
    simp [he, checkAndUpdate, getLatestVersion]
    split <;> rfl
  · simp only [periodicStep, hr, Bool.false_and]
    simp [he, checkAndUpdate, getLatestVersion]
    split <;> rfl
  · intro cv2 lc now2 v e2 w2 hdue hres
    have hr2 : retryDue ⟨cv2, some lc, none, 0⟩ now2 = false := by
      simp [retryDue]
    simp [periodicStep, hr2, hdue, hres]

/-- Witness for C4 at a 404 cycle from an idle scheduler state. -/
theorem c4_notfound_no_retry_witness :
    checkAndUpdate ("1.0.0") .notFound exDemo true .ok .noFault wDemo =
      ((false, none), wDemo) :=
  (c4_notfound_no_retry ("1.0.0") exDemo true .ok .noFault wDemo
    ⟨"1.0.0", some 0, none, 0⟩ 10 ⟨.notFound, exEmpty, true, .ok, .noFault⟩
    rfl rfl).2.1

/-- An extracted archive holding the fixed nested path as a directory but
with no manifest anywhere: claim C5's rule (a) matches it, the code does
not. -/
def exNoManifest : Extracted :=
  ⟨"/tmp/x", [("custom_components", true)], [],
   [["custom_components"], ["custom_components", "ct_ble_devices"]]⟩

/-- Counterexample to claim C5 as stated: on `exNoManifest` the claimed
ordered fallback selects the fixed nested path at rule (a), but the code
(which additionally demands `manifest.json` inside it) finds no payload and
fails the install without mutating any state. -/
theorem c5_payload_search_cex :
    locatePayloadClaim exNoManifest = some CCP ∧
    locatePayload exNoManifest = none ∧
    installFromExtracted exNoManifest ("2.0.0") true .ok .noFault wDemo =
      (false, wDemo) := by
  decide

/-- Claim C5 as amended (proved): the code's payload search equals the
amended ordered fallback — rules (a) and (b) also require `manifest.json`
inside the candidate, and the legacy rules (c)/(d) are checked together for
each top-level directory in iteration order — and when no rule matches the
install fails with the directory state untouched. -/
theorem c5_payload_search_amended (ex : Extracted) :
    locatePayloadAmended ex = locatePayload ex ∧
    (∀ (v : String) (ar : Bool) (rl : ReloadOutcome) (f : SwapFault) (w : World),
      locatePayload ex = none →
      installFromExtracted ex v ar rl f w = (false, w)) := by
  constructor
  · unfold locatePayloadAmended locatePayload
    rw [← findVersioned_eq_findSome, ← findLegacy_eq_findSome]
    by_cases hA : (pexists ex CCP && pexists ex (CCP ++ ["manifest.json"])) = true
    · simp [hA, Option.orElse]
    · simp only [hA, if_neg, Bool.not_eq_true]
      cases hV : findVersioned ex ex.top <;>
        simp [hA, hV, Option.orElse]
  · intro v ar rl f w hloc
    unfold installFromExtracted
    rw [hloc]

/-- Witness for the amended C5 at an archive with no payload. -/
theorem c5_payload_search_amended_witness :
    installFromExtracted exEmpty ("1.0.0") true .ok .noFault wDemo =
      (false, wDemo) :=
  (c5_payload_search_amended exEmpty).2 ("1.0.0") true .ok .noFault wDemo (by decide)

/-- Counterexample to claim C1 as stated: when the reload boundary merely
reports failure (returns false) after the swap, the installer does not roll
back — the install reports failure but the new tree stays live (the
original survives only as `.old`). -/
theorem c1_reload_failure_cex :
    (installFromExtracted exDemo ("2.3.0") true .failed .noFault wDemo).1 = false ∧
    (installFromExtracted exDemo ("2.3.0") true .failed .noFault wDemo).2.live ≠
      some liveDemo ∧
    (installFromExtracted exDemo ("2.3.0") true .failed .noFault wDemo).2.old =
      some liveDemo := by
  decide

/-- Claim C1 as amended (proved): rollback is triggered by a reload
*exception*, not by a reported reload failure; whenever the reload boundary
raises, the install attempt reports failure and the live tree afterwards is
byte-for-byte the live tree from before the attempt (restored by renaming
`.old` back, or from `.backup` when `.old` is absent). -/
theorem c1_rollback_on_reload_exception (ex : Extracted) (v : String) (w : World)
    (L : Tree) (h : w.live = some L) :
    (installFromExtracted ex v true .exn .noFault w).1 = false ∧
    (installFromExtracted ex v true .exn .noFault w).2.live = some L := by
  unfold installFromExtracted
  rcases hloc : locatePayload ex with _ | root
  · simp [h]
  · rw [h]
    dsimp only
    split
    · simp [h]
    · split
      · simp [h]
      · simp

/-- Witness for the amended C1: a reload exception on a successful swap
rolls the live tree back to its pre-install value. -/
theorem c1_rollback_on_reload_exception_witness :
    (installFromExtracted exDemo ("2.3.0") true .exn .noFault wDemo).1 = false ∧
    (installFromExtracted exDemo ("2.3.0") true .exn .noFault wDemo).2.live =
      some liveDemo :=
  c1_rollback_on_reload_exception exDemo ("2.3.0") wDemo liveDemo rfl

/-- Claim C8 (confirmed).  If the second rename of the atomic swap fails
after the live tree was renamed to `.old`, the recovery pass (reverse
rename, staging removal, backup restore) leaves the install reporting
failure, the live tree byte-for-byte equal to the pre-install live tree,
and no staging tree behind. -/
theorem c8_swap_interrupt_recovery (ex : Extracted) (v : String) (ar : Bool)
    (rl : ReloadOutcome) (w : World) (L : Tree)
    (hl : w.live = some L) (hs : w.staging = none) :
    (installFromExtracted ex v ar rl .secondFails w).1 = false ∧
    (installFromExtracted ex v ar rl .secondFails w).2.live = some L ∧
    (installFromExtracted ex v ar rl .secondFails w).2.staging = none := by
  unfold installFromExtracted
  rcases hloc : locatePayload ex with _ | root
  · simp [hl, hs]
  · rw [hl]
    dsimp only
    split
    · simp [hl, hs]
    · split
      · simp [hl, hs]
      · simp

/-- Witness for C8: an interrupted swap on a concrete install leaves the
original live tree in place and no staging tree. -/
theorem c8_swap_interrupt_recovery_witness :
    (installFromExtracted exDemo ("2.3.0") true .ok .secondFails wDemo).1 = false ∧
    (installFromExtracted exDemo ("2.3.0") true .ok .secondFails wDemo).2.live =
      some liveDemo ∧
    (installFromExtracted exDemo ("2.3.0") true .ok .secondFails wDemo).2.staging =
      none :=
  c8_swap_interrupt_recovery exDemo ("2.3.0") true .ok wDemo liveDemo rfl rfl

/-- An extracted archive whose payload carries `manifest.json` at its root
but the required entry point only inside a subdirectory. -/
def exNestedInit : Extracted :=
  ⟨"/tmp/e", [("custom_components", true)],
   [(["custom_components", "ct_ble_devices", "manifest.json"],
       .json [("version", "2.0.0")]),
    (["custom_components", "ct_ble_devices", "lib", "__init__.py"], .text ("x"))],
   [["custom_components"], ["custom_components", "ct_ble_devices"],
    ["custom_components", "ct_ble_devices", "lib"]]⟩

/-- A live tree that itself lacks the required entry point. -/
def wNoInit : World := ⟨some [(["code.py"], .text ("old"))], none, none, none⟩

/-- Counterexample to claim C6 as stated: the required-file check is
name-based over the payload, not a check of the staged tree, so a payload
whose only `__init__.py` sits in a subdirectory passes it.  Here the staged
tree after overlay has no root `__init__.py`, yet the install succeeds and
swaps the tree in instead of failing with a missing-required-files error. -/
theorem c6_missing_required_cex :
    (installFromExtracted exNestedInit ("2.0.0") true .ok .noFault wNoInit).1 = true ∧
    tlookup
      (((installFromExtracted exNestedInit ("2.0.0") true .ok .noFault wNoInit).2.live).getD [])
      ["__init__.py"] = none ∧
    (installFromExtracted exNestedInit ("2.0.0") true .ok .noFault wNoInit).2.live ≠
      wNoInit.live := by
  decide

/-- Claim C6 as amended (proved): whenever the payload (after exclusions)
contains no file *named* `manifest.json` or none named `__init__.py` — the
code's name-based rendering of a staged tree missing a required file — the
installer deletes the staging directory and fails, the live tree and the
`.old` slot are untouched (so no `.old` directory is created), and only the
`.backup` copy has been refreshed. -/
theorem c6_missing_required_amended (ex : Extracted) (root : Path) (v : String)
    (ar : Bool) (rl : ReloadOutcome) (f : SwapFault) (w : World) (L : Tree)
    (hloc : locatePayload ex = some root) (hl : w.live = some L)
    (hm : missingAfter ex root ≠ []) :
    installFromExtracted ex v ar rl f w =
      (false, { w with backup := some L, staging := none }) := by
  unfold installFromExtracted
  rw [hloc, hl]
  dsimp only
  rw [overlay_snd]
  unfold missingAfter at hm
  rw [if_pos hm]

/-- An extracted archive whose payload has a manifest but no entry point at
all. -/
def exNoInitPayload : Extracted :=
  ⟨"/tmp/e", [("custom_components", true)],
   [(["custom_components", "ct_ble_devices", "manifest.json"],
       .json [("version", "2.0.0")])],
   [["custom_components"], ["custom_components", "ct_ble_devices"]]⟩

/-- Witness for the amended C6: a payload with no `__init__.py` anywhere is
rejected with the live tree untouched, no `.old`, and staging removed. -/
theorem c6_missing_required_amended_witness :
    installFromExtracted exNoInitPayload ("2.0.0") true .ok .noFault wDemo =
      (false, { wDemo with backup := some liveDemo, staging := none }) :=
  c6_missing_required_amended exNoInitPayload CCP ("2.0.0") true .ok .noFault wDemo
    liveDemo (by decide) rfl (by decide)

/-- Claim C9 (code bug).  The exclusion set lists the glob patterns
`*.pyc` / `*.pyo`, but line 343 tests each entry as a literal substring of
the path, which a real `.pyc` path never contains — so compiled-bytecode
payload files are copied into the staged tree (and end up live) instead of
being skipped. -/
theorem c9_pyc_not_excluded :
    shouldExclude (pathStr ("/tmp/e") ["custom_components", "ct_ble_devices", "mod.pyc"]) =
      false ∧
    tlookup
      (((installFromExtracted exDemo ("2.3.0") true .ok .noFault wDemo).2.live).getD [])
      ["mod.pyc"] = some (.text ("bytecode")) := by
  decide

/-- Claim C7 (confirmed).  Starting from an idle scheduler, a due regular
check that fails with attempted version `v` records the failure
(`retryCount = 1`); two due retries that fail again raise the count to 3;
at the next due wake the scheduler clears `lastFailedVersion`, resets
`retryCount` to zero, and invokes no check; and at every later wake before
the regular interval has elapsed since the last check it still invokes no
check — there is no fourth retry. -/
theorem c7_retry_exhaustion (cv v : String) (tp t0 t1 t2 t3 : Nat)
    (e0 e1 e2 e3 : CycleEnv)
    (hf0 : ∀ w : World,
      (checkAndUpdate cv e0.resp e0.ex e0.autoReload e0.reload e0.fault w).1 =
        (false, some v))
    (hf1 : ∀ w : World,
      (checkAndUpdate cv e1.resp e1.ex e1.autoReload e1.reload e1.fault w).1 =
        (false, some v))
    (hf2 : ∀ w : World,
      (checkAndUpdate cv e2.resp e2.ex e2.autoReload e2.reload e2.fault w).1 =
        (false, some v))
    (hc0 : CHECK_INTERVAL < t0 - tp)
    (hr1 : RETRY_DELAY ≤ t1 - t0) (hr2 : RETRY_DELAY ≤ t2 - t1)
    (hr3 : RETRY_DELAY ≤ t3 - t2) (hn3 : t3 - t2 ≤ CHECK_INTERVAL) :
    (∀ w : World,
      (periodicStep ⟨cv, some tp, none, 0⟩ t0 e0 w).2.1 = ⟨cv, some t0, some v, 1⟩) ∧
    (∀ w : World,
      (periodicStep ⟨cv, some t0, some v, 1⟩ t1 e1 w).2.1 = ⟨cv, some t1, some v, 2⟩) ∧
    (∀ w : World,
      (periodicStep ⟨cv, some t1, some v, 2⟩ t2 e2 w).2.1 = ⟨cv, some t2, some v, 3⟩) ∧
    (∀ w : World,
      (periodicStep ⟨cv, some t2, some v, 3⟩ t3 e3 w).1 = false ∧
      (periodicStep ⟨cv, some t2, some v, 3⟩ t3 e3 w).2.1 = ⟨cv, some t2, none, 0⟩ ∧
      (periodicStep ⟨cv, some t2, some v, 3⟩ t3 e3 w).2.2 = w) ∧
    (∀ (t4 : Nat) (e4 : CycleEnv) (w : World), t4 - t2 ≤ CHECK_INTERVAL →
      (periodicStep ⟨cv, some t2, none, 0⟩ t4 e4 w).1 = false ∧
      (periodicStep ⟨cv, some t2, none, 0⟩ t4 e4 w).2.1 = ⟨cv, some t2, none, 0⟩) := by
  refine ⟨?_, ?_, ?_, ?_, ?_⟩
  · intro w
    simp [periodicStep, retryDue, hc0, hf0 w]
  · intro w
    simp [periodicStep, retryDue, hr1, hf1 w, MAX_RETRY_ATTEMPTS]
  · intro w
    simp [periodicStep, retryDue, hr2, hf2 w, MAX_RETRY_ATTEMPTS]
  · intro w
    have hnc : ¬(CHECK_INTERVAL < t3 - t2) := Nat.not_lt.mpr hn3
    refine ⟨?_, ?_, ?_⟩ <;>
      simp [periodicStep, retryDue, hr3, hnc, MAX_RETRY_ATTEMPTS]
  · intro t4 e4 w h4
    have hnc : ¬(CHECK_INTERVAL < t4 - t2) := Nat.not_lt.mpr h4
    refine ⟨?_, ?_⟩ <;> simp [periodicStep, retryDue, hnc]

/-- Witness for C7: a concrete trace (registry offers 9.9.9, every install
attempt fails because the archive holds no payload) in which the
abandonment wake at minute 1531 invokes no check. -/
theorem c7_retry_exhaustion_witness :
    (periodicStep ⟨"1.0.0", some 1501, some ("9.9.9"), 3⟩ 1531
      ⟨.ok ⟨"v9.9.9", []⟩, exEmpty, true, .ok, .noFault⟩ wDemo).1 = false :=
  ((c7_retry_exhaustion ("1.0.0") ("9.9.9") 0 1441 1471 1501 1531
    ⟨.ok ⟨"v9.9.9", []⟩, exEmpty, true, .ok, .noFault⟩
    ⟨.ok ⟨"v9.9.9", []⟩, exEmpty, true, .ok, .noFault⟩
    ⟨.ok ⟨"v9.9.9", []⟩, exEmpty, true, .ok, .noFault⟩
    ⟨.ok ⟨"v9.9.9", []⟩, exEmpty, true, .ok, .noFault⟩
    (fun w => rfl) (fun w => rfl) (fun w => rfl)
    (by decide) (by decide) (by decide) (by decide) (by decide)).2.2.2.1
    wDemo).1

/-- One scheduler wake never changes the stored current version. -/
theorem periodicStep_currentVersion (s : UpdState) (t : Nat) (e : CycleEnv)
    (w : World) :
    ((periodicStep s t e w).2.1).currentVersion = s.currentVersion := by
  unfold periodicStep
  dsimp only
  repeat' split
  all_goals rfl

/-- Claim C10 (confirmed).  No sequence of scheduler cycles — including
cycles that perform a successful install and rewrite the on-disk manifest —
ever changes the updater's in-memory current version: after any run it
still equals the value read at startup, so later checks keep comparing the
registry's latest version against the pre-update version. -/
theorem c10_current_version_frozen :
    ∀ (cycles : List (Nat × CycleEnv)) (s : UpdState) (w : World),
      (runCycles s w cycles).1.currentVersion = s.currentVersion := by
  intro cycles
  induction cycles with
  | nil => intro s w; rfl
  | cons c rest ih =>
    intro s w
    obtain ⟨t, e⟩ := c
    calc (runCycles s w ((t, e) :: rest)).1.currentVersion
        = ((periodicStep s t e w).2.1).currentVersion := by
          rw [runCycles]
          exact ih _ _
      _ = s.currentVersion := periodicStep_currentVersion s t e w

end CtBle

